import Mathlib

/-!
Verification development for `yt-sub-transfer.py`, a single-file Python
script that walks a CSV of channels, subscribes to each channel with a
Playwright-driven browser, sets its notification preference to "None",
classifies the per-channel outcome, appends it to a success log or a
skipped/failure CSV, and checkpoints its progress in an offset file.

The script is embedded shallowly:

* Machine-level effects (files, the browser) are replaced by explicit
  data.  The run loop (`run_worker_with_state`) is embedded as a pure
  function `runRows` from the target list to the list of observable
  events it performs, in order (CSV/log writes, checkpoint writes, the
  inter-target sleep, browser restarts, invocations of
  `subscribe_once`).
* The Playwright page is modelled by a `World`: an oracle mapping the
  history of state-changing actions performed so far (navigations and
  clicks) to the answers the DOM gives to the primitive queries the
  script issues (visibility waits, match counts, inner texts, click
  success).  Waits and scrolls are DOM-neutral in this model; an
  operation that raises is modelled as leaving the page state
  unchanged.
* Python string idioms are modelled directly: `s.strip()` as
  `String.trim` (ASCII whitespace), `x or ""` as `Option.getD`,
  `int(...)` by an explicit parser `pyParseInt` for an optionally
  signed digit string with single underscores between digits.

Every definition follows the control flow of the correspondingly named
Python function; source line numbers are cited in the doc comments.
-/

namespace YtSubTransfer

/-! ## Data model -/

/-- `SubscribeResult` (source lines 253–257): `ok : bool`,
`reason : Optional[str]`. -/
structure SubscribeResult where
  ok : Bool
  reason : Option String
deriving DecidableEq, Repr

/-- One CSV row of the target list.  `csv.DictReader` row lookups
`row.get("Channel Title")` / `row.get("Channel Url")` may be absent
(`None`), hence `Option String`. -/
structure Row where
  title : Option String
  url : Option String
deriving DecidableEq, Repr

/-- Drop leading ASCII whitespace from a character list. -/
def dropWhileWs : List Char → List Char
  | [] => []
  | c :: cs => if c.isWhitespace then dropWhileWs cs else c :: cs

/-- Python `str.strip()` (modelled on ASCII whitespace), defined
charwise so that it evaluates by kernel reduction. -/
def pyStrip (s : String) : String :=
  ⟨(dropWhileWs ((dropWhileWs s.data).reverse)).reverse⟩

/-- Python `str.lower()` (ASCII case folding), defined charwise. -/
def pyLower (s : String) : String := ⟨s.data.map Char.toLower⟩

/-- `channel_url = (row.get("Channel Url") or "").strip()` (line 498). -/
def chUrl (row : Row) : String := pyStrip (row.url.getD (""))

/-- `channel_title = (row.get("Channel Title") or "").strip() or channel_url`
(line 499). -/
def chTitle (row : Row) : String :=
  let t := pyStrip (row.title.getD (""))
  if t = ("") then chUrl row else t

/-- `Config` (source lines 21–42), restricted to the fields the engine
logic reads.  The float fields `wait_secs = 10.0` and
`throttle_secs = 1.5` are only ever used as the millisecond timeouts
`int(wait_secs * 1000)` resp. as an opaque sleep duration, so they are
carried in milliseconds as naturals. -/
structure Config where
  wait_ms : Nat := 10000
  throttle_ms : Nat := 1500
  restart_every_n : Nat := 25
  retries_per_channel : Nat := 0
  login_wait_secs : Nat := 600
  role_first_try_ms : Nat := 1200
deriving DecidableEq, Repr

/-- `CFG = Config()` (line 43). -/
def CFG : Config := {}

/-! ## Run loop trace semantics

`run_worker_with_state` (lines 472–545) is embedded as a function
producing the ordered list of its observable per-target effects.  The
index carried by the log events is the ghost row identity (the spec's
checkpoint unit); the strings are exactly what the script writes. -/

/-- Observable events of one run of the worker loop. -/
inductive Event where
  /-- `subscribe_once(page, channel_title, channel_url)` invoked for
  row `idx` (line 508). -/
  | subscribeCall (idx : Nat)
  /-- `log_fp.write(f"Subscribed: {title} ({url})[ [reason]]")`
  (line 514): the success-log sink. -/
  | logSuccess (idx : Nat) (title url : String) (reason : Option String)
  /-- `skipped_writer.writerow([title, url, reason])` (lines 504, 517):
  the skipped/failure CSV sink. -/
  | logSkip (idx : Nat) (title url reason : String)
  /-- `write_offset(n)` (lines 505, 519). -/
  | writeOffset (n : Nat)
  /-- `time.sleep(CFG.throttle_secs)` (line 520). -/
  | sleepThrottle
  /-- Lines 522–538: tear down the browser and relaunch it from the
  same `storage_state_path`. -/
  | restartBrowser
deriving DecidableEq, Repr

/-- The body of the `for idx, row in iter_csv_rows(...)` loop
(lines 494–538), as a recursion over the remaining rows.

* `f idx row` supplies the `SubscribeResult` that `subscribe_once`
  returns for row `idx` (the Action Executor is a separate function,
  embedded below; the loop is proved against an arbitrary executor).
* `idx` is the enumeration counter of `iter_csv_rows`, `k` the
  `start_index` read from the offset file (line 481), `c` the running
  `processed_since_restart` counter (line 480). -/
def runRows (cfg : Config) (f : Nat → Row → SubscribeResult) (k : Nat) :
    Nat → Nat → List Row → List Event
  | _, _, [] => []
  | idx, c, row :: rest =>
    if idx < k then
      -- line 495–496: `if idx < start_index: continue`
      runRows cfg f k (idx + 1) c rest
    else
      if chUrl row = ("") then
        -- lines 502–506: missing url ⇒ skip row, advance checkpoint,
        -- `continue` (which bypasses the sleep and the restart counter)
        Event.logSkip idx (chTitle row) (chUrl row) ("missing url") ::
        Event.writeOffset (idx + 1) ::
        runRows cfg f k (idx + 1) c rest
      else
        -- lines 508–520
        let r := f idx row
        let logEv :=
          if r.ok then Event.logSuccess idx (chTitle row) (chUrl row) r.reason
          else Event.logSkip idx (chTitle row) (chUrl row) (r.reason.getD ("unknown"))
        Event.subscribeCall idx :: logEv ::
        Event.writeOffset (idx + 1) :: Event.sleepThrottle ::
        -- lines 522–538: `processed_since_restart += 1;
        -- if processed_since_restart >= CFG.restart_every_n: restart`
        (if cfg.restart_every_n ≤ c + 1 then
          Event.restartBrowser :: runRows cfg f k (idx + 1) 0 rest
        else
          runRows cfg f k (idx + 1) (c + 1) rest)

/-- Which row a sink/checkpoint/executor event belongs to:
`writeOffset n` stems from row `n - 1` (the loop only ever writes
`idx + 1`). -/
def touches (i : Nat) : Event → Bool
  | .subscribeCall j => j == i
  | .logSuccess j _ _ _ => j == i
  | .logSkip j _ _ _ => j == i
  | .writeOffset n => n == i + 1
  | .sleepThrottle => false
  | .restartBrowser => false

/-- All events of the trace belonging to row `i`. -/
def eventsOfIdx (i : Nat) (tr : List Event) : List Event :=
  tr.filter (touches i)

/-- The checkpoint values written, in order. -/
def offsetWrites (tr : List Event) : List Nat :=
  tr.filterMap (fun e => match e with | .writeOffset n => some n | _ => none)

/-- The events the loop performs for row `i` carrying `row`, given it
is reached (restart/sleep events carry no row identity and are not
listed here). -/
def rowEvents (f : Nat → Row → SubscribeResult) (k i : Nat) (row : Row) :
    List Event :=
  if i < k then []
  else if chUrl row = ("") then
    [Event.logSkip i (chTitle row) (chUrl row) ("missing url"),
     Event.writeOffset (i + 1)]
  else
    let r := f i row
    [Event.subscribeCall i,
     (if r.ok then Event.logSuccess i (chTitle row) (chUrl row) r.reason
      else Event.logSkip i (chTitle row) (chUrl row) (r.reason.getD ("unknown"))),
     Event.writeOffset (i + 1)]

/-- The events of row `i` in the suffix of the target list whose first
row has absolute index `idx`. -/
def rowEventsAt (f : Nat → Row → SubscribeResult) (k i idx : Nat)
    (rows : List Row) : List Event :=
  if idx ≤ i then
    match rows[i - idx]? with
    | some row => rowEvents f k i row
    | none => []
  else []

lemma rowEventsAt_cons_ne (f : Nat → Row → SubscribeResult) (k i idx : Nat)
    (row : Row) (rest : List Row) (h : i ≠ idx) :
    rowEventsAt f k i idx (row :: rest) = rowEventsAt f k i (idx + 1) rest := by
  rcases Nat.lt_or_ge i idx with hlt | hge
  · have h1 : ¬ idx ≤ i := by omega
    have h2 : ¬ idx + 1 ≤ i := by omega
    simp [rowEventsAt, h1, h2]
  · have h1 : idx ≤ i := by omega
    have h2 : idx + 1 ≤ i := by omega
    have h3 : i - idx = (i - (idx + 1)) + 1 := by omega
    simp [rowEventsAt, h1, h2, h3]

lemma rowEventsAt_cons_self (f : Nat → Row → SubscribeResult) (k i : Nat)
    (row : Row) (rest : List Row) :
    rowEventsAt f k i i (row :: rest) = rowEvents f k i row := by
  simp [rowEventsAt]

/-- Master characterization of `runRows`: the sub-trace of events
belonging to row `i` is exactly `rowEvents` of that row (empty when the
row does not exist or lies below the checkpoint). -/
lemma eventsOfIdx_runRows (cfg : Config) (f : Nat → Row → SubscribeResult)
    (k i : Nat) :
    ∀ (rows : List Row) (idx c : Nat),
      eventsOfIdx i (runRows cfg f k idx c rows) = rowEventsAt f k i idx rows
  | [], idx, c => by simp [runRows, eventsOfIdx, rowEventsAt]
  | row :: rest, idx, c => by
    have ihA := fun c' => eventsOfIdx_runRows cfg f k i rest (idx + 1) c'
    by_cases hik : i = idx
    · subst hik
      have hnot : ¬ (i + 1 ≤ i) := by omega
      have ihnil : ∀ c', eventsOfIdx i (runRows cfg f k (i + 1) c' rest) = [] := by
        intro c'; rw [ihA c']; simp [rowEventsAt, hnot]
      rw [rowEventsAt_cons_self]
      by_cases hk : i < k
      · simp only [runRows, if_pos hk]
        rw [ihnil c]
        simp [rowEvents, hk]
      · simp only [runRows, if_neg hk]
        by_cases hurl : chUrl row = ("")
        · simp only [if_pos hurl]
          have := ihnil c
          simp only [eventsOfIdx] at this ⊢
          simp [List.filter_cons, touches, this, rowEvents, hk, hurl]
        · simp only [if_neg hurl]
          by_cases hr : cfg.restart_every_n ≤ c + 1
          · have := ihnil 0
            simp only [eventsOfIdx] at this ⊢
            by_cases hok : (f i row).ok <;>
              simp [List.filter_cons, touches, hr, this, rowEvents, hk, hurl, hok]
          · have := ihnil (c + 1)
            simp only [eventsOfIdx] at this ⊢
            by_cases hok : (f i row).ok <;>
              simp [List.filter_cons, touches, hr, this, rowEvents, hk, hurl, hok]
    · rw [rowEventsAt_cons_ne f k i idx row rest hik]
      have hne1 : (idx == i) = false := by simp [Nat.beq_eq_true_eq]; omega
      have hne2 : (idx + 1 == i + 1) = false := by simp [Nat.beq_eq_true_eq]; omega
      by_cases hk : idx < k
      · simp only [runRows, if_pos hk]
        exact ihA c
      · simp only [runRows, if_neg hk]
        by_cases hurl : chUrl row = ("")
        · simp only [if_pos hurl]
          have := ihA c
          simp only [eventsOfIdx] at this ⊢
          simp [List.filter_cons, touches, hne1, hne2, this]
        · simp only [if_neg hurl]
          by_cases hr : cfg.restart_every_n ≤ c + 1
          · have := ihA 0
            simp only [eventsOfIdx] at this ⊢
            by_cases hok : (f idx row).ok <;>
              simp [List.filter_cons, touches, hr, hne1, hne2, this, hok]
          · have := ihA (c + 1)
            simp only [eventsOfIdx] at this ⊢
            by_cases hok : (f idx row).ok <;>
              simp [List.filter_cons, touches, hr, hne1, hne2, this, hok]

/-- Filtering by a predicate the counted element satisfies preserves its
count. -/
lemma count_filter_of (p : Event → Bool) (a : Event) (h : p a = true) :
    ∀ tr : List Event, (tr.filter p).count a = tr.count a
  | [] => rfl
  | e :: tr => by
    by_cases hpe : p e = true
    · simp [List.filter_cons, hpe, List.count_cons, count_filter_of p a h tr]
    · have hne : ¬ (e = a) := by
        intro hEq; rw [hEq, h] at hpe; exact hpe rfl
      simp [List.filter_cons, hpe, List.count_cons, hne,
        count_filter_of p a h tr]

/-! ### Adjacency discipline of the trace -/

/-- `e` is the log-sink event of row `i`. -/
def isLogOf (i : Nat) : Event → Bool
  | .logSuccess j _ _ _ => j == i
  | .logSkip j _ _ _ => j == i
  | _ => false

/-- Local discipline between adjacent trace events: a checkpoint write
`writeOffset n` is immediately preceded by the log event of row
`n - 1`, and a browser restart immediately follows the inter-target
sleep. -/
def afterOk (a b : Event) : Bool :=
  match b with
  | .writeOffset n =>
    match a with
    | .logSuccess j _ _ _ => j + 1 == n
    | .logSkip j _ _ _ => j + 1 == n
    | _ => false
  | .restartBrowser =>
    match a with
    | .sleepThrottle => true
    | _ => false
  | _ => true

/-- A trace never begins with a checkpoint write or a restart. -/
def headGood : List Event → Bool
  | .writeOffset _ :: _ => false
  | .restartBrowser :: _ => false
  | _ => true

lemma headGood_runRows (cfg : Config) (f : Nat → Row → SubscribeResult)
    (k : Nat) :
    ∀ (rows : List Row) (idx c : Nat),
      headGood (runRows cfg f k idx c rows) = true
  | [], idx, c => by simp [runRows, headGood]
  | row :: rest, idx, c => by
    by_cases hk : idx < k
    · simp only [runRows, if_pos hk]
      exact headGood_runRows cfg f k rest (idx + 1) c
    · simp only [runRows, if_neg hk]
      by_cases hurl : chUrl row = ("") <;> simp [hurl, headGood]

lemma chain'_afterOk_cons (x : Event) (tr : List Event)
    (hg : headGood tr = true)
    (hc : List.Chain' (fun a b => afterOk a b = true) tr) :
    List.Chain' (fun a b => afterOk a b = true) (x :: tr) := by
  cases tr with
  | nil => simp
  | cons y tr' =>
    rw [List.chain'_cons]
    refine ⟨?_, hc⟩
    cases y <;> simp [headGood] at hg ⊢ <;> simp [afterOk]

/-- Every trace of the run loop obeys the adjacency discipline. -/
lemma chain'_afterOk_runRows (cfg : Config) (f : Nat → Row → SubscribeResult)
    (k : Nat) :
    ∀ (rows : List Row) (idx c : Nat),
      List.Chain' (fun a b => afterOk a b = true) (runRows cfg f k idx c rows)
  | [], idx, c => by simp [runRows]
  | row :: rest, idx, c => by
    by_cases hk : idx < k
    · simp only [runRows, if_pos hk]
      exact chain'_afterOk_runRows cfg f k rest (idx + 1) c
    · simp only [runRows, if_neg hk]
      by_cases hurl : chUrl row = ("")
      · simp only [if_pos hurl]
        refine List.chain'_cons.mpr ⟨by simp [afterOk], ?_⟩
        exact chain'_afterOk_cons _ _
          (headGood_runRows cfg f k rest (idx + 1) c)
          (chain'_afterOk_runRows cfg f k rest (idx + 1) c)
      · simp only [if_neg hurl]
        by_cases hr : cfg.restart_every_n ≤ c + 1
        · simp only [if_pos hr]
          have htail := chain'_afterOk_cons Event.restartBrowser _
            (headGood_runRows cfg f k rest (idx + 1) 0)
            (chain'_afterOk_runRows cfg f k rest (idx + 1) 0)
          by_cases hok : (f idx row).ok <;>
            simp only [hok, if_pos, if_neg, Bool.false_eq_true, ite_true,
              ite_false] <;>
          · refine List.chain'_cons.mpr ⟨by simp [afterOk], ?_⟩
            refine List.chain'_cons.mpr ⟨by simp [afterOk], ?_⟩
            refine List.chain'_cons.mpr ⟨by simp [afterOk], ?_⟩
            exact List.chain'_cons.mpr ⟨by simp [afterOk], htail⟩
        · simp only [if_neg hr]
          have htail := chain'_afterOk_cons Event.sleepThrottle _
            (headGood_runRows cfg f k rest (idx + 1) (c + 1))
            (chain'_afterOk_runRows cfg f k rest (idx + 1) (c + 1))
          have htail' : List.Chain' (fun a b => afterOk a b = true)
              (Event.sleepThrottle :: runRows cfg f k (idx + 1) (c + 1) rest) :=
            htail
          by_cases hok : (f idx row).ok <;>
            simp only [hok, Bool.false_eq_true, ite_true, ite_false] <;>
          · refine List.chain'_cons.mpr ⟨by simp [afterOk], ?_⟩
            refine List.chain'_cons.mpr ⟨by simp [afterOk], ?_⟩
            exact List.chain'_cons.mpr ⟨by simp [afterOk], htail'⟩

/-! ### Restart cadence and throttle checkers -/

/-- Trace checker for the recycle cadence: walking the trace with `c` =
number of `subscribe_once` invocations since the last browser restart,
at most `n` invocations happen between restarts and a restart occurs
exactly when the count has reached `n`. -/
def cadence (n : Nat) : Nat → List Event → Bool
  | _, [] => true
  | c, .subscribeCall _ :: tr => decide (c + 1 ≤ n) && cadence n (c + 1) tr
  | c, .restartBrowser :: tr => decide (c = n) && cadence n 0 tr
  | c, _ :: tr => cadence n c tr

lemma cadence_runRows (cfg : Config) (f : Nat → Row → SubscribeResult)
    (k : Nat) (hn : 1 ≤ cfg.restart_every_n) :
    ∀ (rows : List Row) (idx c : Nat), c < cfg.restart_every_n →
      cadence cfg.restart_every_n c (runRows cfg f k idx c rows) = true
  | [], idx, c, hc => by simp [runRows, cadence]
  | row :: rest, idx, c, hc => by
    by_cases hk : idx < k
    · simp only [runRows, if_pos hk]
      exact cadence_runRows cfg f k hn rest (idx + 1) c hc
    · simp only [runRows, if_neg hk]
      by_cases hurl : chUrl row = ("")
      · simp only [if_pos hurl]
        simp only [cadence]
        exact cadence_runRows cfg f k hn rest (idx + 1) c hc
      · simp only [if_neg hurl]
        by_cases hr : cfg.restart_every_n ≤ c + 1
        · have hceq : c + 1 = cfg.restart_every_n := by omega
          by_cases hok : (f idx row).ok <;>
            simp only [hok, hr, Bool.false_eq_true, ite_true, ite_false,
              if_pos] <;>
            simp [cadence, hceq,
              cadence_runRows cfg f k hn rest (idx + 1) 0 (by omega)]
        · have hlt : c + 1 < cfg.restart_every_n := by omega
          have hle : c + 1 ≤ cfg.restart_every_n := by omega
          by_cases hok : (f idx row).ok <;>
            simp only [hok, hr, Bool.false_eq_true, ite_true, ite_false,
              if_neg, not_false_iff] <;>
            simp [cadence, hle,
              cadence_runRows cfg f k hn rest (idx + 1) (c + 1) hlt]

/-- Trace checker for the inter-target throttle: every `subscribe_once`
invocation is immediately followed by its log event, the checkpoint
write, and the `time.sleep` — before anything else happens. -/
def throttleOk : List Event → Bool
  | .subscribeCall i :: e :: .writeOffset n :: .sleepThrottle :: tr =>
      isLogOf i e && (i + 1 == n) && throttleOk tr
  | .subscribeCall _ :: _ => false
  | _ :: tr => throttleOk tr
  | [] => true

lemma throttleOk_runRows (cfg : Config) (f : Nat → Row → SubscribeResult)
    (k : Nat) :
    ∀ (rows : List Row) (idx c : Nat),
      throttleOk (runRows cfg f k idx c rows) = true
  | [], idx, c => by simp [runRows, throttleOk]
  | row :: rest, idx, c => by
    by_cases hk : idx < k
    · simp only [runRows, if_pos hk]
      exact throttleOk_runRows cfg f k rest (idx + 1) c
    · simp only [runRows, if_neg hk]
      by_cases hurl : chUrl row = ("")
      · simp only [if_pos hurl]
        simp only [throttleOk]
        exact throttleOk_runRows cfg f k rest (idx + 1) c
      · simp only [if_neg hurl]
        by_cases hr : cfg.restart_every_n ≤ c + 1
        · by_cases hok : (f idx row).ok <;>
            simp only [hok, hr, Bool.false_eq_true, ite_true, ite_false,
              if_pos] <;>
            simp [throttleOk, isLogOf,
              throttleOk_runRows cfg f k rest (idx + 1) 0]
        · by_cases hok : (f idx row).ok <;>
            simp only [hok, hr, Bool.false_eq_true, ite_true, ite_false,
              if_neg, not_false_iff] <;>
            simp [throttleOk, isLogOf,
              throttleOk_runRows cfg f k rest (idx + 1) (c + 1)]

/-- `e` is a `subscribe_once` invocation event. -/
def isSubCall : Event → Bool
  | .subscribeCall _ => true
  | _ => false

/-- The loop sleeps exactly once per `subscribe_once` invocation: rows
skipped for a missing url contribute a checkpoint write but no sleep. -/
lemma sleep_count_runRows (cfg : Config) (f : Nat → Row → SubscribeResult)
    (k : Nat) :
    ∀ (rows : List Row) (idx c : Nat),
      (runRows cfg f k idx c rows).count Event.sleepThrottle =
        (runRows cfg f k idx c rows).countP isSubCall
  | [], idx, c => by simp [runRows]
  | row :: rest, idx, c => by
    by_cases hk : idx < k
    · simp only [runRows, if_pos hk]
      exact sleep_count_runRows cfg f k rest (idx + 1) c
    · simp only [runRows, if_neg hk]
      by_cases hurl : chUrl row = ("")
      · simp only [if_pos hurl]
        simp [List.count_cons, List.countP_cons, isSubCall,
          sleep_count_runRows cfg f k rest (idx + 1) c]
      · simp only [if_neg hurl]
        by_cases hr : cfg.restart_every_n ≤ c + 1
        · by_cases hok : (f idx row).ok <;>
            simp only [hok, hr, Bool.false_eq_true, ite_true, ite_false,
              if_pos] <;>
            simp [List.count_cons, List.countP_cons, isSubCall,
              sleep_count_runRows cfg f k rest (idx + 1) 0]
        · by_cases hok : (f idx row).ok <;>
            simp only [hok, hr, Bool.false_eq_true, ite_true, ite_false,
              if_neg, not_false_iff] <;>
            simp [List.count_cons, List.countP_cons, isSubCall,
              sleep_count_runRows cfg f k rest (idx + 1) (c + 1)]

/-! ### Checkpoint writes -/

/-- Checkpoint writes are strictly increasing along the trace, and every
written value exceeds both the absolute index of the first remaining
row and the starting offset `k`. -/
lemma offsetWrites_runRows (cfg : Config) (f : Nat → Row → SubscribeResult)
    (k : Nat) :
    ∀ (rows : List Row) (idx c : Nat),
      List.Chain' (· < ·) (offsetWrites (runRows cfg f k idx c rows)) ∧
      ∀ n ∈ offsetWrites (runRows cfg f k idx c rows), idx < n ∧ k < n
  | [], idx, c => by simp [runRows, offsetWrites]
  | row :: rest, idx, c => by
    by_cases hk : idx < k
    · simp only [runRows, if_pos hk]
      obtain ⟨h1, h2⟩ := offsetWrites_runRows cfg f k rest (idx + 1) c
      exact ⟨h1, fun n hn => ⟨by have := (h2 n hn).1; omega, (h2 n hn).2⟩⟩
    · have hkle : k ≤ idx := by omega
      simp only [runRows, if_neg hk]
      by_cases hurl : chUrl row = ("")
      · simp only [if_pos hurl]
        obtain ⟨h1, h2⟩ := offsetWrites_runRows cfg f k rest (idx + 1) c
        simp only [offsetWrites, List.filterMap_cons] at h1 h2 ⊢
        refine ⟨List.chain'_cons'.mpr ⟨?_, h1⟩, ?_⟩
        · intro b hb
          exact (h2 b (List.mem_of_mem_head? hb)).1
        · intro n hn
          rcases List.mem_cons.mp hn with h | h
          · omega
          · have := h2 n h; omega
      · simp only [if_neg hurl]
        by_cases hr : cfg.restart_every_n ≤ c + 1
        · obtain ⟨h1, h2⟩ := offsetWrites_runRows cfg f k rest (idx + 1) 0
          by_cases hok : (f idx row).ok <;>
            simp only [hok, hr, Bool.false_eq_true, ite_true, ite_false,
              if_pos] <;>
          · simp only [offsetWrites, List.filterMap_cons] at h1 h2 ⊢
            refine ⟨List.chain'_cons'.mpr ⟨?_, h1⟩, ?_⟩
            · intro b hb
              exact (h2 b (List.mem_of_mem_head? hb)).1
            · intro n hn
              rcases List.mem_cons.mp hn with h | h
              · omega
              · have := h2 n h; omega
        · obtain ⟨h1, h2⟩ := offsetWrites_runRows cfg f k rest (idx + 1) (c + 1)
          by_cases hok : (f idx row).ok <;>
            simp only [hok, hr, Bool.false_eq_true, ite_true, ite_false,
              if_neg, not_false_iff] <;>
          · simp only [offsetWrites, List.filterMap_cons] at h1 h2 ⊢
            refine ⟨List.chain'_cons'.mpr ⟨?_, h1⟩, ?_⟩
            · intro b hb
              exact (h2 b (List.mem_of_mem_head? hb)).1
            · intro n hn
              rcases List.mem_cons.mp hn with h | h
              · omega
              · have := h2 n h; omega

lemma count_writeOffset_rowEvents (f : Nat → Row → SubscribeResult)
    (k i : Nat) (row : Row) (hk : ¬ i < k) :
    (rowEvents f k i row).count (Event.writeOffset (i + 1)) = 1 := by
  by_cases hurl : chUrl row = ("")
  · simp [rowEvents, hk, hurl, List.count_cons]
  · by_cases hok : (f i row).ok <;>
      simp [rowEvents, hk, hurl, hok, List.count_cons]

/-- Each row at or past the starting offset receives exactly one
checkpoint write `write_offset(idx + 1)` in the whole trace. -/
lemma count_writeOffset_runRows (cfg : Config)
    (f : Nat → Row → SubscribeResult) (k i : Nat) (rows : List Row)
    (row : Row) (hrow : rows[i]? = some row) (hk : k ≤ i) :
    (runRows cfg f k 0 0 rows).count (Event.writeOffset (i + 1)) = 1 := by
  have htouch : touches i (Event.writeOffset (i + 1)) = true := by
    simp [touches]
  have h1 := count_filter_of (touches i) (Event.writeOffset (i + 1)) htouch
    (runRows cfg f k 0 0 rows)
  have h2 := eventsOfIdx_runRows cfg f k i rows 0 0
  simp only [eventsOfIdx] at h2
  rw [← h1, h2]
  have : rowEventsAt f k i 0 rows = rowEvents f k i row := by
    simp [rowEventsAt, hrow]
  rw [this]
  exact count_writeOffset_rowEvents f k i row (by omega)

lemma count_subCall_rowEventsAt (f : Nat → Row → SubscribeResult)
    (k i idx : Nat) (rows : List Row) :
    (rowEventsAt f k i idx rows).count (Event.subscribeCall i) ≤ 1 := by
  rw [rowEventsAt]
  by_cases hle : idx ≤ i
  · simp only [if_pos hle]
    cases hrow : rows[i - idx]? with
    | none => simp
    | some row =>
      by_cases hk : i < k
      · simp [rowEvents, hk]
      · by_cases hurl : chUrl row = ("")
        · simp [rowEvents, hk, hurl, List.count_cons]
        · by_cases hok : (f i row).ok <;>
            simp [rowEvents, hk, hurl, hok, List.count_cons]
  · simp [if_neg hle]

/-- `subscribe_once` is invoked at most once per row over the entire
run: retries (if any) could only live inside the Action Executor, never
across Run Loop iterations. -/
lemma count_subCall_runRows (cfg : Config)
    (f : Nat → Row → SubscribeResult) (k i idx c : Nat) (rows : List Row) :
    (runRows cfg f k idx c rows).count (Event.subscribeCall i) ≤ 1 := by
  have htouch : touches i (Event.subscribeCall i) = true := by
    simp [touches]
  have h1 := count_filter_of (touches i) (Event.subscribeCall i) htouch
    (runRows cfg f k idx c rows)
  have h2 := eventsOfIdx_runRows cfg f k i rows idx c
  simp only [eventsOfIdx] at h2
  rw [← h1, h2]
  exact count_subCall_rowEventsAt f k i idx rows

/-! ## Checkpoint store: `read_offset` / `write_offset`

`read_offset` (lines 135–141) and `write_offset` (lines 143–144).  The
offset file is modelled by its content: `none` when the file does not
exist, `some s` its text otherwise. -/

/-- Parser model of Python `int(str)` on an already-stripped string: an
optional sign followed by a nonempty ASCII digit sequence in which
single underscores may separate digits.  `none` models `ValueError`. -/
def pyDigitsAux : Nat → List Char → Option Nat
  | acc, [] => some acc
  | acc, c :: cs =>
    if c.isDigit then pyDigitsAux (10 * acc + (c.toNat - 48)) cs
    else if c = '_' then
      match cs with
      | [] => none
      | d :: cs' =>
        if d.isDigit then pyDigitsAux (10 * acc + (d.toNat - 48)) cs'
        else none
    else none

/-- A nonempty digit string (with legal underscores) and its value. -/
def pyDigits : List Char → Option Nat
  | [] => none
  | c :: cs => if c.isDigit then pyDigitsAux (c.toNat - 48) cs else none

/-- `int(s)` for a stripped string `s` (sign handling). -/
def pyParseInt (s : String) : Option Int :=
  match s.data with
  | '-' :: rest => (pyDigits rest).map (fun n => -(n : Int))
  | '+' :: rest => (pyDigits rest).map (fun n => (n : Int))
  | cs => (pyDigits cs).map (fun n => (n : Int))

/-- `read_offset` (lines 135–141):

```python
if not path.exists(): return 0
try:
    return int(path.read_text(encoding="utf-8").strip() or "0")
except Exception:
    return 0
```

Total by construction (the `except` is the `none` branch of the
parser), but its result is whatever integer the file holds — including
a negative one. -/
def read_offset (file : Option String) : Int :=
  match file with
  | none => 0
  | some s =>
    let t := pyStrip s
    let t := if t = ("") then ("0") else t
    match pyParseInt t with
    | some n => n
    | none => 0

/-- `write_offset(i)` (lines 143–144) persists the decimal rendering of
`i`; the run loop only ever calls it with `idx + 1`. -/
def write_offset (i : Nat) : String := toString i

/-- Observable part of `run_worker_with_state` (lines 472–545): read
the persisted offset and iterate the rows from enumeration index 0 with
a fresh `processed_since_restart = 0`.  `Int.toNat` clamps a negative
persisted offset to 0, which agrees with the source's
`idx < start_index` test: a nonnegative `idx` is below a negative
`start_index` exactly as often as below 0 — never. -/
def run_worker_with_state (cfg : Config) (f : Nat → Row → SubscribeResult)
    (offsetFile : Option String) (rows : List Row) : List Event :=
  runRows cfg f (read_offset offsetFile).toNat 0 0 rows

/-! ## Page world

The Playwright page is modelled by an oracle: `World.ans h` answers the
primitive DOM queries the script issues after the state-changing
actions `h` (navigations and clicks, oldest first) have been
performed.  Waits, scrolls and settle delays are DOM-neutral; an
operation that raises is modelled as leaving the page unchanged.
Locators are a scope (the whole page, or the `i`-th match of the
menu-container selector chosen by `get_menu_root`) plus a selector. -/

/-- Locator scope: `page.locator(":root")` / plain `page` queries, or
`candidates.nth(i)` returned by `get_menu_root`. -/
inductive Scope where
  | pageRoot
  | menuCand (i : Nat)
deriving DecidableEq, Repr

/-- Selector of a locator: a CSS/XPath source string, or one of the two
`get_by_role("menuitemradio")` queries of `_click_none_by_role`
(filtered by `has_text=regex`, resp. `name=regex`). -/
inductive Sel where
  | css (s : String)
  | roleHasText
  | roleName
deriving DecidableEq, Repr

/-- State-changing page actions (the history the oracle is indexed by). -/
inductive Action where
  | goto (url : String)
  | click (sc : Scope) (sel : Sel) (idx : Nat) (force : Bool)
deriving DecidableEq, Repr

/-- Answers of the DOM to the primitive queries, at one page state.
`none` in an `…E` field models the call raising an exception. -/
structure DomAnswers where
  /-- `page.goto(url)` succeeds. -/
  gotoOk : String → Bool
  /-- The exception text when `goto` raises (for `f"navigation: {e}"`). -/
  gotoErrMsg : String → String
  /-- The exception text when a click raises (for `f"click: {e}"`). -/
  clickErrMsg : String
  /-- `loc.nth(i).is_visible()`; `none` = raises. -/
  isVisibleE : Scope → Sel → Nat → Option Bool
  /-- `loc.first.wait_for(state="visible", timeout=ms)` succeeds. -/
  waitVisible : Scope → Sel → Nat → Bool
  /-- `loc.count()`. -/
  cssCount : Scope → Sel → Nat
  /-- `loc.nth(i).inner_text(timeout=500)`; `none` = raises. -/
  innerTextE : Scope → Sel → Nat → Option String
  /-- `loc.nth(i).click()` succeeds (does not raise). -/
  clickOk : Scope → Sel → Nat → Bool
  /-- `loc.nth(i).click(force=True)` succeeds. -/
  clickForceOk : Scope → Sel → Nat → Bool

/-- The page world: history of performed actions ↦ DOM answers. -/
structure World where
  ans : List Action → DomAnswers

/-! ### Selector constants (source lines 60–120, 153–158, 268–271) -/

/-- `SUBSCRIBE_SELECTORS` (lines 60–65). -/
def SUBSCRIBE_SELECTORS : List Sel :=
  [Sel.css ("button:has-text(\x27Subscribe\x27)"),
   Sel.css ("yt-button-shape button:has(span:has-text(\x27Subscribe\x27))"),
   Sel.css ("button[aria-label*=\x27Subscribe\x27]"),
   Sel.css ("//button[normalize-space()=\x27Subscribe\x27]")]

/-- `SUBSCRIBED_SELECTORS` (lines 66–70). -/
def SUBSCRIBED_SELECTORS : List Sel :=
  [Sel.css ("yt-button-shape button:has(span:has-text(\x27Subscribed\x27))"),
   Sel.css ("button:has-text(\x27Subscribed\x27)"),
   Sel.css ("button[aria-label*=\x27Subscribed\x27]")]

/-- `SUBSCRIBED_DROPDOWN_SELECTORS` (lines 73–76). -/
def SUBSCRIBED_DROPDOWN_SELECTORS : List Sel :=
  [Sel.css ("yt-button-shape[aria-haspopup=\x27menu\x27] button:has(span:has-text(\x27Subscribed\x27))"),
   Sel.css ("yt-button-shape:has(button:has(span:has-text(\x27Subscribed\x27))) + yt-button-shape button")]

/-- `NOTIF_BELL_SELECTORS` (lines 79–85). -/
def NOTIF_BELL_SELECTORS : List Sel :=
  [Sel.css ("button[aria-label*=\x27notifications\x27]"),
   Sel.css ("button[aria-label*=\x27Notification settings\x27]"),
   Sel.css ("button[aria-label*=\x27Notify\x27]"),
   Sel.css ("yt-subscribe-button-shape + yt-button-shape button"),
   Sel.css ("ytd-subscribe-button-renderer tp-yt-paper-tooltip ~ yt-button-shape button")]

/-- Consent selectors of `click_consent_if_present` (lines 153–158). -/
def CONSENT_SELECTORS : List Sel :=
  [Sel.css ("button:has-text(\x27I agree\x27)"),
   Sel.css ("button:has-text(\x27Accept all\x27)"),
   Sel.css ("#introAgreeButton"),
   Sel.css ("form[action*=\x27consent\x27] button[type=\x27submit\x27]")]

/-- The combined menu-container candidates selector of `get_menu_root`
(lines 268–271). -/
def MENU_CANDIDATES : Sel :=
  Sel.css ("yt-sheet-view-model, ytd-menu-popup-renderer, tp-yt-paper-menu-button[opened], tp-yt-iron-dropdown:not([aria-hidden=\x27true\x27])")

/-- `"[role='menuitemradio']"` (lines 286, 113). -/
def SEL_RADIO_ITEM : Sel := Sel.css ("[role=\x27menuitemradio\x27]")

/-- `"radio-shape label"` (line 288). -/
def SEL_RADIO_SHAPE_LABEL : Sel := Sel.css ("radio-shape label")

/-- `build_none_selectors(labels)` (lines 87–117).  The compiled
`role_regex` `^(?:lbl1|lbl2|…)$` (re.IGNORECASE) over the stripped
nonempty labels is carried as that label list; matching is modelled by
`noneRegexSearch` below. -/
structure NoneSelectors where
  labels : List String
  role_css : String
  text_css : List String
  xpath_fallback : String
deriving DecidableEq, Repr

/-- The four text-based selectors generated for one label
(lines 103–109). -/
def textCssFor (lbl : String) : List String :=
  [("tp-yt-paper-item:has-text(\x27") ++ lbl ++ ("\x27)"),
   ("ytd-menu-service-item-renderer:has-text(\x27") ++ lbl ++ ("\x27)"),
   ("//yt-formatted-string[normalize-space()=\x27") ++ lbl ++ ("\x27]"),
   ("radio-shape label:has-text(\x27") ++ lbl ++ ("\x27)")]

/-- `build_none_selectors` (lines 87–117). -/
def build_none_selectors (labels : List String) : NoneSelectors :=
  { labels := (labels.map pyStrip).filter (fun l => !(l == ("")))
    role_css := ("[role=\x27menuitemradio\x27]")
    text_css := labels.foldr
      (fun lbl acc =>
        let lbl := pyStrip lbl
        if lbl = ("") then acc else textCssFor lbl ++ acc) []
    xpath_fallback := ("//*[@id=\"contentWrapper\"]/yt-sheet-view-model/yt-contextual-sheet-layout/div[2]/yt-list-view-model/yt-list-item-view-model[3]/radio-shape/label") }

/-- `role_regex.search(text)`: the pattern is anchored on both sides,
so a search hit means the whole text equals one of the labels, case
insensitively (modelled with `String.toLower`). -/
def noneRegexSearch (ns : NoneSelectors) (t : String) : Bool :=
  ns.labels.any (fun l => pyLower l == pyLower t)

/-- `--none-labels` default `"None,Κανένα"` split on commas
(lines 556–557, 572–574). -/
def DEFAULT_LABELS : List String := [("None"), ("Κανένα")]

/-- `NONE_SELECTORS` as set in `main()` (line 575) under the default
configuration. -/
def NONE_SELECTORS : NoneSelectors := build_none_selectors DEFAULT_LABELS

/-! ### Element helpers (source lines 152–167, 266–292) -/

/-- Loop body of `click_consent_if_present` (lines 152–167): first
selector whose first match is visible gets clicked; a raising
`is_visible`/`click` falls through to the next selector. -/
def click_consent_loop (w : World) : List Action → List Sel → List Action
  | h, [] => h
  | h, sel :: rest =>
    let a := w.ans h
    if (a.isVisibleE Scope.pageRoot sel 0).getD false then
      if a.clickOk Scope.pageRoot sel 0 then
        h ++ [Action.click Scope.pageRoot sel 0 false]
      else click_consent_loop w h rest
    else click_consent_loop w h rest

/-- `click_consent_if_present(page)` (lines 152–167). -/
def click_consent_if_present (w : World) (h : List Action) : List Action :=
  click_consent_loop w h CONSENT_SELECTORS

/-- `get_menu_root(page)` (lines 266–281): the first visible of the
first `min(5, count or 1)` menu-container candidates; falls back to the
page-wide `page.locator(":root")` when none is visible. -/
def get_menu_root (w : World) (h : List Action) : Scope :=
  let a := w.ans h
  let cnt := a.cssCount Scope.pageRoot MENU_CANDIDATES
  let limit := min 5 (if cnt = 0 then 1 else cnt)
  match (List.range limit).find?
      (fun i => (a.isVisibleE Scope.pageRoot MENU_CANDIDATES i).getD false) with
  | some i => Scope.menuCand i
  | none => Scope.pageRoot

/-- `menu_is_open(page)` (lines 283–292).  The single `try` wraps both
visibility checks, so an exception in the first check abandons the
second and yields `False`. -/
def menu_is_open (w : World) (h : List Action) : Bool :=
  let root := get_menu_root w h
  let a := w.ans h
  match a.isVisibleE root SEL_RADIO_ITEM 0 with
  | none => false
  | some true => true
  | some false =>
    match a.isVisibleE root SEL_RADIO_SHAPE_LABEL 0 with
    | none => false
    | some b => b

/-! ### Opening the notifications menu (source lines 294–325) -/

/-- One `for sel in …` loop of `open_notifications_menu`: wait for the
selector, click it, and re-check `menu_is_open`; any raising step
advances to the next selector. -/
def open_menu_try (w : World) (waitMs : Nat) :
    List Action → List Sel → Bool × List Action
  | h, [] => (false, h)
  | h, sel :: rest =>
    let a := w.ans h
    if a.waitVisible Scope.pageRoot sel waitMs then
      if a.clickOk Scope.pageRoot sel 0 then
        let h' := h ++ [Action.click Scope.pageRoot sel 0 false]
        if menu_is_open w h' then (true, h')
        else open_menu_try w waitMs h' rest
      else open_menu_try w waitMs h rest
    else open_menu_try w waitMs h rest

/-- `open_notifications_menu(page)` (lines 294–325): short-circuit if a
menu already reads as open, then the bell selectors, then the
Subscribed-pill dropdown selectors. -/
def open_notifications_menu (cfg : Config) (w : World) (h : List Action) :
    Bool × List Action :=
  if menu_is_open w h then (true, h)
  else
    match open_menu_try w cfg.wait_ms h NOTIF_BELL_SELECTORS with
    | (true, h') => (true, h')
    | (false, h') =>
      open_menu_try w cfg.wait_ms h'
        (SUBSCRIBED_DROPDOWN_SELECTORS ++ SUBSCRIBED_SELECTORS)

/-! ### The "None" option strategies (source lines 327–416) -/

/-- One role-based attempt of `_click_none_by_role` (lines 329–349):
short `role_first_try_ms` wait, then click; a raising wait or click
fails the attempt (caught and logged at debug level). -/
def roleAttempt (cfg : Config) (w : World) (h : List Action) (q : Sel) :
    Bool × List Action :=
  let a := w.ans h
  if a.waitVisible Scope.pageRoot q cfg.role_first_try_ms then
    if a.clickOk Scope.pageRoot q 0 then
      (true, h ++ [Action.click Scope.pageRoot q 0 false])
    else (false, h)
  else (false, h)

/-- `_click_none_by_role(page)` (lines 327–351).  Note it receives
`root.page` in `set_notifications_none`, so both queries are page-wide
regardless of the menu root. -/
def click_none_by_role (cfg : Config) (w : World) (h : List Action) :
    Bool × List Action :=
  match roleAttempt cfg w h Sel.roleHasText with
  | (true, h') => (true, h')
  | (false, h') =>
    match roleAttempt cfg w h' Sel.roleName with
    | (true, h'') => (true, h'')
    | (false, h'') => (false, h'')

/-- Scan loop of `_click_none_by_css_scan` (lines 360–373): for each of
the first `min(20, max(1, count))` `[role='menuitemradio']` matches,
read its inner text (a raise advances to the next index), and click the
first whose stripped text matches the label regex; a raising plain
click is retried with `force=True`, and a raising force click aborts
the whole scan (outer `except` ⇒ `False`). -/
def cssScanLoop (ns : NoneSelectors) (w : World) (root : Scope) :
    List Action → List Nat → Bool × List Action
  | h, [] => (false, h)
  | h, i :: is =>
    let a := w.ans h
    match a.innerTextE root (Sel.css ns.role_css) i with
    | none => cssScanLoop ns w root h is
    | some text =>
      if noneRegexSearch ns (pyStrip text) then
        if a.clickOk root (Sel.css ns.role_css) i then
          (true, h ++ [Action.click root (Sel.css ns.role_css) i false])
        else if a.clickForceOk root (Sel.css ns.role_css) i then
          (true, h ++ [Action.click root (Sel.css ns.role_css) i true])
        else (false, h)
      else cssScanLoop ns w root h is

/-- `_click_none_by_css_scan(page)` (lines 353–376): scoped to a fresh
`get_menu_root(page)`. -/
def click_none_by_css_scan (ns : NoneSelectors) (w : World)
    (h : List Action) : Bool × List Action :=
  let a := w.ans h
  let root := get_menu_root w h
  let cnt := a.cssCount root (Sel.css ns.role_css)
  cssScanLoop ns w root h (List.range (min 20 (max 1 cnt)))

/-- Strategy kinds of the spec's `SelectorStrategy` enum, used as ghost
instrumentation: the source does not track which strategies were
attempted. -/
inductive StratKind where
  | role
  | cssScan
  | textMatch
  | absolutePath
deriving DecidableEq, Repr

/-- Text-selector loop of `set_notifications_none` (lines 394–403),
scoped to the menu root; a raising wait or click advances to the next
selector. -/
def textLoop (w : World) (root : Scope) :
    List Action → List String → Bool × List Action
  | h, [] => (false, h)
  | h, sel :: rest =>
    let a := w.ans h
    if a.waitVisible root (Sel.css sel) 1200 then
      if a.clickOk root (Sel.css sel) 0 then
        (true, h ++ [Action.click root (Sel.css sel) 0 false])
      else textLoop w root h rest
    else textLoop w root h rest

/-- The fixed failure reason of the exhausted "None" chain (line 416). -/
def noneNotFoundMsg : String := ("notif \x27None\x27 option not found")

/-- The fixed failure reason when the menu never opens (line 380). -/
def menuNotFoundMsg : String := ("notif menu not found")

/-- `set_notifications_none(page)` (lines 378–416).  The third
component is ghost instrumentation: the strategy kinds attempted, in
order (empty when the menu never opened). -/
def set_notifications_none (cfg : Config) (ns : NoneSelectors) (w : World)
    (h : List Action) : SubscribeResult × List Action × List StratKind :=
  match open_notifications_menu cfg w h with
  | (false, h1) => (⟨false, some menuNotFoundMsg⟩, h1, [])
  | (true, h1) =>
    -- line 383: `root = get_menu_root(page)` — "scoped to the open menu"
    let root := get_menu_root w h1
    -- 1) quick ARIA-role attempts (page-wide: `_click_none_by_role(root.page)`)
    match click_none_by_role cfg w h1 with
    | (true, h2) => (⟨true, none⟩, h2, [StratKind.role])
    | (false, h2) =>
      -- 2) CSS role scan (page-wide root resolution inside)
      match click_none_by_css_scan ns w h2 with
      | (true, h3) => (⟨true, none⟩, h3, [StratKind.role, StratKind.cssScan])
      | (false, h3) =>
        -- 3) text-based selectors inside root
        match textLoop w root h3 ns.text_css with
        | (true, h4) =>
          (⟨true, none⟩, h4, [StratKind.role, StratKind.cssScan, StratKind.textMatch])
        | (false, h4) =>
          -- 4) absolute XPath fallback
          let a := w.ans h4
          let attempted := [StratKind.role, StratKind.cssScan,
            StratKind.textMatch, StratKind.absolutePath]
          if (a.isVisibleE root (Sel.css ns.xpath_fallback) 0).getD false then
            if a.clickOk root (Sel.css ns.xpath_fallback) 0 then
              (⟨true, none⟩,
               h4 ++ [Action.click root (Sel.css ns.xpath_fallback) 0 false],
               attempted)
            else (⟨false, some noneNotFoundMsg⟩, h4, attempted)
          else (⟨false, some noneNotFoundMsg⟩, h4, attempted)

/-! ### `subscribe_once` (source lines 418–466) -/

/-- Lines 420–457 of `subscribe_once`: navigate, dismiss consent, click
the Subscribe control (falling back to a forced click), or else verify
an already-Subscribed control is present.  `.ok h` = the subscribe step
succeeded with page history `h` (control clicked, or Subscribed
verified); `.error (res, h)` = early exit with the failure result
(navigation failure, "subscribe button not found", or both clicks
raising — the outer `except` of line 465). -/
def subscribe_phase (cfg : Config) (w : World) (h : List Action)
    (channel_url : String) :
    Except (SubscribeResult × List Action) (List Action) :=
  let a := w.ans h
  if a.gotoOk channel_url then
    let h1 := h ++ [Action.goto channel_url]
    let h2 := click_consent_if_present w h1
    match SUBSCRIBE_SELECTORS.find?
        (fun sel => (w.ans h2).waitVisible Scope.pageRoot sel cfg.wait_ms) with
    | some sel =>
      let a2 := w.ans h2
      if a2.clickOk Scope.pageRoot sel 0 then
        Except.ok (h2 ++ [Action.click Scope.pageRoot sel 0 false])
      else if a2.clickForceOk Scope.pageRoot sel 0 then
        Except.ok (h2 ++ [Action.click Scope.pageRoot sel 0 true])
      else
        Except.error
          (⟨false, some (("click: ") ++ a2.clickErrMsg)⟩, h2)
    | none =>
      if SUBSCRIBED_SELECTORS.any
          (fun sel => (w.ans h2).waitVisible Scope.pageRoot sel cfg.wait_ms) then
        Except.ok h2
      else
        Except.error (⟨false, some ("subscribe button not found")⟩, h2)
  else
    Except.error
      (⟨false, some (("navigation: ") ++ a.gotoErrMsg channel_url)⟩, h)

/-- `subscribe_once(page, channel_title, channel_url)` (lines 418–466):
the subscribe phase, then ALWAYS `set_notifications_none`; a failing
notification step downgrades to `ok = True` with a
`"subscribed but …"` warning reason (lines 459–463).  `channel_title`
is unused by the source function and kept for signature fidelity. -/
def subscribe_once (cfg : Config) (ns : NoneSelectors) (w : World)
    (h : List Action) (channel_title channel_url : String) :
    SubscribeResult × List Action :=
  match subscribe_phase cfg w h channel_url with
  | .error (res, h') => (res, h')
  | .ok h' =>
    match set_notifications_none cfg ns w h' with
    | (notif, h'', _) =>
      if notif.ok then (⟨true, none⟩, h'')
      else
        (⟨true, some (("subscribed but ") ++ notif.reason.getD ("None"))⟩, h'')

/-! ## Concrete fixtures used by witnesses and counterexamples -/

/-- An executor that always reports plain success. -/
def fOkW : Nat → Row → SubscribeResult := fun _ _ => ⟨true, none⟩

/-- A valid target row. -/
def rowA : Row := ⟨some ("A"), some ("http://a")⟩

/-- A row whose action-URL field is whitespace-only. -/
def rowNoUrl : Row := ⟨some ("B"), some ("   ")⟩

/-- 26 rows: one missing-url row followed by 25 valid ones. -/
def rows26 : List Row := rowNoUrl :: List.replicate 25 rowA

lemma rowEventsAt_of_lt (f : Nat → Row → SubscribeResult) (k i idx : Nat)
    (rows : List Row) (h : i < k) : rowEventsAt f k i idx rows = [] := by
  rw [rowEventsAt]
  by_cases hle : idx ≤ i
  · simp only [if_pos hle]
    cases rows[i - idx]? with
    | none => rfl
    | some row => simp [rowEvents, h]
  · simp [if_neg hle]

/-! ## Claims about the run loop -/

/-- C2: for every target row the run loop reaches at or past the
starting offset `k`, `write_offset(idx + 1)` is performed exactly once;
every checkpoint write is immediately preceded by that row's log-sink
event (outcome classified and logged first); and the sequence of
persisted offsets is monotonically non-decreasing and stays above the
starting offset. -/
theorem checkpoint_once_after_log_and_monotone (cfg : Config)
    (f : Nat → Row → SubscribeResult) (k : Nat) (rows : List Row) :
    (∀ i row, rows[i]? = some row → k ≤ i →
      (runRows cfg f k 0 0 rows).count (Event.writeOffset (i + 1)) = 1) ∧
    List.Chain' (fun a b => afterOk a b = true) (runRows cfg f k 0 0 rows) ∧
    List.Chain' (· ≤ ·) (offsetWrites (runRows cfg f k 0 0 rows)) ∧
    (∀ n ∈ offsetWrites (runRows cfg f k 0 0 rows), k < n) := by
  refine ⟨?_, ?_, ?_, ?_⟩
  · intro i row hrow hk
    exact count_writeOffset_runRows cfg f k i rows row hrow hk
  · exact chain'_afterOk_runRows cfg f k rows 0 0
  · exact (offsetWrites_runRows cfg f k rows 0 0).1.imp
      (fun a b hab => Nat.le_of_lt hab)
  · intro n hn
    exact ((offsetWrites_runRows cfg f k rows 0 0).2 n hn).2

/-- Witness for C2 at a concrete one-row run. -/
theorem checkpoint_once_after_log_and_monotone_witness :
    (runRows CFG fOkW 0 0 0 [rowA]).count (Event.writeOffset 1) = 1 :=
  (checkpoint_once_after_log_and_monotone CFG fOkW 0 [rowA]).1 0 rowA rfl
    (Nat.le_refl 0)

/-- C3: a run started with persisted checkpoint `k` never invokes
`subscribe_once` for a row with index `i < k`, and performs no logging
or checkpoint write for such a row either (`touches` covers exactly the
executor invocation, the two log sinks, and the row's checkpoint
write). -/
theorem resume_never_touches_below_checkpoint (cfg : Config)
    (f : Nat → Row → SubscribeResult) (k : Nat) (rows : List Row)
    (i : Nat) (hik : i < k) :
    ∀ e ∈ runRows cfg f k 0 0 rows, touches i e = false := by
  intro e he
  cases htouch : touches i e with
  | false => rfl
  | true =>
    have hmem : e ∈ eventsOfIdx i (runRows cfg f k 0 0 rows) :=
      List.mem_filter.mpr ⟨he, htouch⟩
    rw [eventsOfIdx_runRows cfg f k i rows 0 0,
      rowEventsAt_of_lt f k i 0 rows hik] at hmem
    exact absurd hmem (List.not_mem_nil e)

/-- Witness for C3: with checkpoint 1, no event of the two-row run
touches row 0 — in particular its `subscribe_once` is never invoked. -/
theorem resume_never_touches_below_checkpoint_witness :
    touches 0 (Event.subscribeCall 1) = false :=
  resume_never_touches_below_checkpoint CFG fOkW 1 [rowA, rowA] 0
    (by decide) (Event.subscribeCall 1) (by decide)

/-- C4: a reached row with an empty (missing or whitespace-only)
action-URL field produces exactly a skipped-CSV row with reason
`"missing url"` followed by the checkpoint advance, and its
`subscribe_once` is never invoked. -/
theorem missing_url_skipped_no_invocation (cfg : Config)
    (f : Nat → Row → SubscribeResult) (k : Nat) (rows : List Row)
    (i : Nat) (row : Row) (hrow : rows[i]? = some row) (hk : k ≤ i)
    (hurl : chUrl row = ("")) :
    eventsOfIdx i (runRows cfg f k 0 0 rows) =
      [Event.logSkip i (chTitle row) (chUrl row) ("missing url"),
       Event.writeOffset (i + 1)] ∧
    Event.subscribeCall i ∉ runRows cfg f k 0 0 rows := by
  have hik : ¬ i < k := by omega
  have hevents : eventsOfIdx i (runRows cfg f k 0 0 rows) =
      [Event.logSkip i (chTitle row) (chUrl row) ("missing url"),
       Event.writeOffset (i + 1)] := by
    rw [eventsOfIdx_runRows cfg f k i rows 0 0, rowEventsAt]
    simp only [Nat.zero_le, if_pos, Nat.sub_zero, hrow]
    rw [rowEvents, if_neg hik, if_pos hurl]
  refine ⟨hevents, ?_⟩
  intro hmem
  have htouch : touches i (Event.subscribeCall i) = true := by simp [touches]
  have : Event.subscribeCall i ∈ eventsOfIdx i (runRows cfg f k 0 0 rows) :=
    List.mem_filter.mpr ⟨hmem, htouch⟩
  rw [hevents] at this
  simp at this

/-- Witness for C4 at a concrete whitespace-url row. -/
theorem missing_url_skipped_no_invocation_witness :
    eventsOfIdx 0 (runRows CFG fOkW 0 0 0 [rowNoUrl]) =
      [Event.logSkip 0 (chTitle rowNoUrl) (chUrl rowNoUrl) ("missing url"),
       Event.writeOffset 1] :=
  (missing_url_skipped_no_invocation CFG fOkW 0 [rowNoUrl] 0 rowNoUrl rfl
    (Nat.le_refl 0) (by decide)).1

/-- C5 counterexample: in the run over `[rowNoUrl, rowA]` the loop
proceeds from the missing-url target 0 (checkpoint write at position 1)
directly to invoking `subscribe_once` for target 1 (position 2) with no
`time.sleep(throttle_secs)` in between — the `continue` of line 506
bypasses the sleep of line 520. -/
theorem throttle_after_skipped_target_cex :
    (runRows CFG fOkW 0 0 0 [rowNoUrl, rowA])[1]? =
      some (Event.writeOffset 1) ∧
    (runRows CFG fOkW 0 0 0 [rowNoUrl, rowA])[2]? =
      some (Event.subscribeCall 1) ∧
    ((runRows CFG fOkW 0 0 0 [rowNoUrl, rowA]).take 3).all
      (fun e => !(e == Event.sleepThrottle)) = true := by decide

/-- C5 (amended): the fixed inter-target delay follows every target for
which `subscribe_once` was invoked — immediately after its log event
and checkpoint write — but targets skipped for a missing URL advance
the checkpoint and proceed to the next target without any delay (there
is exactly one sleep per executor invocation in the whole trace). -/
theorem throttle_follows_each_invocation (cfg : Config)
    (f : Nat → Row → SubscribeResult) (k idx c : Nat) (rows : List Row) :
    throttleOk (runRows cfg f k idx c rows) = true ∧
    (runRows cfg f k idx c rows).count Event.sleepThrottle =
      (runRows cfg f k idx c rows).countP isSubCall :=
  ⟨throttleOk_runRows cfg f k rows idx c,
   sleep_count_runRows cfg f k rows idx c⟩

/-- C6 counterexample: in a run over one missing-url row followed by 25
valid rows, `subscribe_once` is invoked for target 25 — the 26th
processed target — before any browser restart has happened, although
`restart_every_n = 25` targets (including the skipped one) were already
processed: rows skipped by the `continue` of line 506 never increment
`processed_since_restart`. -/
theorem recycle_cadence_counts_skipped_cex :
    ((runRows CFG fOkW 0 0 0 rows26).takeWhile
      (fun e => !(e == Event.restartBrowser))).contains
      (Event.subscribeCall 25) = true := by decide

/-- C6 (amended): browser recycling happens after exactly
`restart_every_n` targets for which `subscribe_once` was invoked
(success or failure alike) — targets skipped for a missing URL do not
count — and before the next invocation: walking the trace, at most
`restart_every_n` invocations occur between restarts and each restart
occurs exactly when that count is reached. -/
theorem recycle_cadence_counts_invocations (cfg : Config)
    (f : Nat → Row → SubscribeResult) (k : Nat) (rows : List Row)
    (hn : 1 ≤ cfg.restart_every_n) :
    cadence cfg.restart_every_n 0 (runRows cfg f k 0 0 rows) = true :=
  cadence_runRows cfg f k hn rows 0 0 (by omega)

/-- Witness for the amended C6 at the default cadence of 25. -/
theorem recycle_cadence_counts_invocations_witness :
    cadence CFG.restart_every_n 0 (runRows CFG fOkW 0 0 0 rows26) = true :=
  recycle_cadence_counts_invocations CFG fOkW 0 rows26 (by decide)

/-! ## C7: the per-target retry count -/

/-- A page world on which every element wait fails and nothing is
visible: navigation succeeds, but neither a Subscribe nor a Subscribed
control ever resolves. -/
def wFail : World :=
  ⟨fun _ =>
    { gotoOk := fun _ => true
      gotoErrMsg := fun _ => ("")
      clickErrMsg := ("")
      isVisibleE := fun _ _ _ => some false
      waitVisible := fun _ _ _ => false
      cssCount := fun _ _ => 0
      innerTextE := fun _ _ _ => none
      clickOk := fun _ _ _ => false
      clickForceOk := fun _ _ _ => false }⟩

/-- A configuration requesting one retry per channel. -/
def cfgRetry : Config := { CFG with retries_per_channel := 1 }

/-- C7 counterexample: with `retries_per_channel = 1` and a target
whose subscribe control never resolves, `subscribe_once` returns
`Failed("subscribe button not found")` after a single pass — the
returned action history holds exactly one navigation and no click, so
the whole action was not re-attempted even once. -/
theorem retries_not_honored_cex :
    subscribe_once cfgRetry NONE_SELECTORS wFail [] ("T") ("http://u") =
      (⟨false, some ("subscribe button not found")⟩,
       [Action.goto ("http://u")]) := by decide

/-- C7 (amended): `Config.retries_per_channel` is declared (line 32)
but never consulted: `subscribe_once` behaves identically for every
value of the field, so each failing target gets exactly one attempt of
the whole action; and `subscribe_once` is invoked at most once per
target row across the entire run, so retries of any kind never span Run
Loop iterations. -/
theorem retries_per_channel_never_consulted (cfg : Config) (n : Nat)
    (ns : NoneSelectors) (w : World) (h : List Action) (t u : String) :
    subscribe_once { cfg with retries_per_channel := n } ns w h t u =
      subscribe_once cfg ns w h t u ∧
    ∀ (f : Nat → Row → SubscribeResult) (k i idx c : Nat) (rows : List Row),
      (runRows { cfg with retries_per_channel := n } f k idx c rows).count
        (Event.subscribeCall i) ≤ 1 := by
  constructor
  · cases cfg; rfl
  · intro f k i idx c rows
    exact count_subCall_runRows _ f k i idx c rows

/-! ## C9: `read_offset` -/

/-- C9 counterexample: a checkpoint file containing `"-5"` parses as
the Python integer `-5`, so `read_offset` returns a negative offset —
the content is not unparsable (which would yield 0), it is a
well-formed negative literal. -/
theorem read_offset_negative_cex :
    read_offset (some ("-5")) = -5 ∧ read_offset (some ("-5")) < 0 := by
  decide

/-- C9 (amended): `read_offset` is total (the embedding returns a value
for every file state — the `except` of line 140 is the `none` branch of
the parser) and returns 0 when the file is missing, strips to the empty
string, or fails to parse as a Python integer; when the content does
parse, the parsed value is returned as-is — including a negative one,
so the result is not guaranteed non-negative. -/
theorem read_offset_total_and_defaults :
    read_offset none = 0 ∧
    (∀ s, pyStrip s = ("") → read_offset (some s) = 0) ∧
    (∀ s, pyParseInt (if pyStrip s = ("") then ("0") else pyStrip s) = none →
      read_offset (some s) = 0) ∧
    (∀ s n, pyParseInt (if pyStrip s = ("") then ("0") else pyStrip s) = some n →
      read_offset (some s) = n) := by
  refine ⟨rfl, ?_, ?_, ?_⟩
  · intro s hs
    have h0 : pyParseInt ("0") = some 0 := by decide
    simp [read_offset, hs, h0]
  · intro s hp
    simp only [read_offset]
    rw [hp]
  · intro s n hp
    simp only [read_offset]
    rw [hp]

/-- Witness for the amended C9: a parsable positive content is returned
as parsed, and a whitespace-only file defaults to 0. -/
theorem read_offset_total_and_defaults_witness :
    read_offset (some ("7")) = 7 ∧ read_offset (some ("  ")) = 0 :=
  ⟨read_offset_total_and_defaults.2.2.2 ("7") 7 (by decide),
   read_offset_total_and_defaults.2.1 ("  ") (by decide)⟩

/-! ## C1: partial-success classification and routing -/

/-- The first Subscribe selector (line 61). -/
def subSel0 : Sel := Sel.css ("button:has-text(\x27Subscribe\x27)")

/-- A page world where navigation and the Subscribe click succeed but
the notifications menu never opens: only the first Subscribe selector
ever resolves, nothing is visible, and no menu exists. -/
def wC1 : World :=
  ⟨fun _ =>
    { gotoOk := fun _ => true
      gotoErrMsg := fun _ => ("")
      clickErrMsg := ("")
      isVisibleE := fun _ _ _ => some false
      waitVisible := fun _ sel _ => sel == subSel0
      cssCount := fun _ _ => 0
      innerTextE := fun _ _ _ => none
      clickOk := fun _ _ _ => true
      clickForceOk := fun _ _ _ => true }⟩

/-- C1: whenever the subscribe step succeeds (the Subscribe control is
clicked, or an already-Subscribed control is verified — i.e.
`subscribe_phase` returns `.ok`) and `set_notifications_none` then
fails with reason `r`, `subscribe_once` returns `ok = True` with the
warning reason `"subscribed but r"`; and any run-loop row fed that
outcome produces exactly a success-log event carrying the warning — and
no skipped/failure-CSV event. -/
theorem partial_success_warns_and_routes_to_success_log (cfg : Config)
    (ns : NoneSelectors) (w : World) (h h' h'' : List Action)
    (t u r : String) (ks : List StratKind)
    (hphase : subscribe_phase cfg w h u = Except.ok h')
    (hnotif : set_notifications_none cfg ns w h' = (⟨false, some r⟩, h'', ks)) :
    (subscribe_once cfg ns w h t u).1 =
      ⟨true, some (("subscribed but ") ++ r)⟩ ∧
    ∀ (cfg2 : Config) (f : Nat → Row → SubscribeResult) (k i : Nat)
      (rows : List Row) (row : Row),
      rows[i]? = some row → k ≤ i → chUrl row ≠ ("") →
      f i row = (subscribe_once cfg ns w h t u).1 →
      eventsOfIdx i (runRows cfg2 f k 0 0 rows) =
        [Event.subscribeCall i,
         Event.logSuccess i (chTitle row) (chUrl row)
           (some (("subscribed but ") ++ r)),
         Event.writeOffset (i + 1)] := by
  have h1 : (subscribe_once cfg ns w h t u).1 =
      ⟨true, some (("subscribed but ") ++ r)⟩ := by
    simp [subscribe_once, hphase, hnotif]
  refine ⟨h1, ?_⟩
  intro cfg2 f k i rows row hrow hk hurl hf
  have hik : ¬ i < k := by omega
  rw [eventsOfIdx_runRows cfg2 f k i rows 0 0, rowEventsAt]
  simp only [Nat.zero_le, if_pos, Nat.sub_zero, hrow]
  rw [rowEvents, if_neg hik, if_neg hurl, hf, h1]
  simp

/-- Witness for C1: on `wC1` the Subscribe control is clicked, the menu
never opens, and the outcome is a warning-carrying success. -/
theorem partial_success_warns_witness :
    (subscribe_once CFG NONE_SELECTORS wC1 [] ("T") ("http://u")).1 =
      ⟨true, some (("subscribed but ") ++ menuNotFoundMsg)⟩ :=
  (partial_success_warns_and_routes_to_success_log CFG NONE_SELECTORS wC1 []
    [Action.goto ("http://u"), Action.click Scope.pageRoot subSel0 0 false]
    [Action.goto ("http://u"), Action.click Scope.pageRoot subSel0 0 false]
    ("T") ("http://u") menuNotFoundMsg []
    rfl (by decide)).1

/-! ## C8: the failure reason of an exhausted strategy chain -/

/-- `pat` is a prefix of `s` (character lists). -/
def startsWithChars : List Char → List Char → Bool
  | [], _ => true
  | _ :: _, [] => false
  | a :: as, b :: bs => a == b && startsWithChars as bs

/-- `pat` occurs contiguously in `s` (character lists). -/
def hasSubChars (pat : List Char) : List Char → Bool
  | [] => startsWithChars pat []
  | c :: rest => startsWithChars pat (c :: rest) || hasSubChars pat rest

/-- `pat` occurs as a substring of `s`. -/
def containsSubstr (s pat : String) : Bool := hasSubChars pat.data s.data

/-- Printable names of the spec's strategy kinds. -/
def stratKindName : StratKind → String
  | .role => ("role")
  | .cssScan => ("cssScan")
  | .textMatch => ("textMatch")
  | .absolutePath => ("absolutePath")

/-- A page world in which a stray page-wide `[role='menuitemradio']`
match makes the menu read as open (no menu container is visible), yet
every "None" strategy fails: role waits time out, the scan finds no
readable item, text selectors never resolve, the XPath fallback is not
visible. -/
def wC8 : World :=
  ⟨fun _ =>
    { gotoOk := fun _ => true
      gotoErrMsg := fun _ => ("")
      clickErrMsg := ("")
      isVisibleE := fun _ sel _ => some (sel == SEL_RADIO_ITEM)
      waitVisible := fun _ _ _ => false
      cssCount := fun _ _ => 0
      innerTextE := fun _ _ _ => none
      clickOk := fun _ _ _ => false
      clickForceOk := fun _ _ _ => false }⟩

/-- Shape of a completed `set_notifications_none`: success, menu never
opened (nothing attempted), or all four strategies attempted and the
fixed not-found reason returned. -/
lemma snn_shape (cfg : Config) (ns : NoneSelectors) (w : World)
    (h : List Action) :
    (set_notifications_none cfg ns w h).1.ok = true ∨
    set_notifications_none cfg ns w h =
      (⟨false, some menuNotFoundMsg⟩,
       (open_notifications_menu cfg w h).2, []) ∨
    ((set_notifications_none cfg ns w h).1 = ⟨false, some noneNotFoundMsg⟩ ∧
     (set_notifications_none cfg ns w h).2.2 =
       [StratKind.role, StratKind.cssScan, StratKind.textMatch,
        StratKind.absolutePath]) := by
  rcases hopen : open_notifications_menu cfg w h with ⟨b, h1⟩
  cases b
  · right; left
    simp [set_notifications_none, hopen]
  · rcases hrole : click_none_by_role cfg w h1 with ⟨br, h2⟩
    cases br
    · rcases hcss : click_none_by_css_scan ns w h2 with ⟨bc, h3⟩
      cases bc
      · rcases htext : textLoop w (get_menu_root w h1) h3 ns.text_css
          with ⟨bt, h4⟩
        cases bt
        · by_cases hx : ((w.ans h4).isVisibleE (get_menu_root w h1)
              (Sel.css ns.xpath_fallback) 0).getD false
          · by_cases hck : (w.ans h4).clickOk (get_menu_root w h1)
                (Sel.css ns.xpath_fallback) 0
            · left
              simp [set_notifications_none, hopen, hrole, hcss, htext,
                hx, hck]
            · right; right
              simp [set_notifications_none, hopen, hrole, hcss, htext,
                hx, hck]
          · right; right
            simp [set_notifications_none, hopen, hrole, hcss, htext, hx]
        · left
          simp [set_notifications_none, hopen, hrole, hcss, htext]
      · left
        simp [set_notifications_none, hopen, hrole, hcss]
    · left
      simp [set_notifications_none, hopen, hrole]

/-- C8 counterexample: on `wC8` the notification chain attempts all
four strategy kinds and exhausts them, yet the resulting failure
outcome is the fixed string `"notif 'None' option not found"` — no
attempted strategy kind occurs anywhere in it, so the outcome does not
carry the attempted-strategies list. -/
theorem exhausted_chain_reason_lacks_strategies_cex :
    (set_notifications_none CFG NONE_SELECTORS wC8 []).1 =
      ⟨false, some noneNotFoundMsg⟩ ∧
    (set_notifications_none CFG NONE_SELECTORS wC8 []).2.2 =
      [StratKind.role, StratKind.cssScan, StratKind.textMatch,
       StratKind.absolutePath] ∧
    ([StratKind.role, StratKind.cssScan, StratKind.textMatch,
      StratKind.absolutePath].all
      (fun k0 => !(containsSubstr noneNotFoundMsg (stratKindName k0)))) =
      true := by decide

/-- C8 (amended): exhausting the "None" strategy chain yields a failure
outcome whose reason is the fixed diagnostic string
`"notif 'None' option not found"`; the list of attempted strategy
kinds is not carried in the outcome (it is visible at most in debug
logging) — no strategy-kind name occurs in the reason. -/
theorem exhausted_chain_fixed_reason (cfg : Config) (ns : NoneSelectors)
    (w : World) (h : List Action)
    (hfail : (set_notifications_none cfg ns w h).1.ok = false)
    (hatt : (set_notifications_none cfg ns w h).2.2 ≠ []) :
    (set_notifications_none cfg ns w h).1.reason = some noneNotFoundMsg ∧
    (∀ k0 : StratKind,
      containsSubstr noneNotFoundMsg (stratKindName k0) = false ∧
      containsSubstr ("subscribe button not found") (stratKindName k0) =
        false) ∧
    ∀ (w2 : World) (h2 : List Action) (u : String),
      (w2.ans h2).gotoOk u = true →
      (∀ sel ∈ SUBSCRIBE_SELECTORS,
        (w2.ans (click_consent_if_present w2 (h2 ++ [Action.goto u]))).waitVisible
          Scope.pageRoot sel cfg.wait_ms = false) →
      (∀ sel ∈ SUBSCRIBED_SELECTORS,
        (w2.ans (click_consent_if_present w2 (h2 ++ [Action.goto u]))).waitVisible
          Scope.pageRoot sel cfg.wait_ms = false) →
      subscribe_phase cfg w2 h2 u =
        Except.error (⟨false, some ("subscribe button not found")⟩,
          click_consent_if_present w2 (h2 ++ [Action.goto u])) := by
  refine ⟨?_, fun k0 => by cases k0 <;> exact ⟨by decide, by decide⟩, ?_⟩
  · rcases snn_shape cfg ns w h with hok | hmenu | ⟨hres, _⟩
    · rw [hok] at hfail; exact absurd hfail (by simp)
    · rw [hmenu] at hatt; exact absurd rfl hatt
    · rw [hres]
  · intro w2 h2 u hgoto hsub hsubd
    have hfind : SUBSCRIBE_SELECTORS.find?
        (fun sel =>
          (w2.ans (click_consent_if_present w2 (h2 ++ [Action.goto u]))).waitVisible
            Scope.pageRoot sel cfg.wait_ms) = none := by
      apply List.find?_eq_none.mpr
      intro sel hsel
      simp [hsub sel hsel]
    have hany : SUBSCRIBED_SELECTORS.any
        (fun sel =>
          (w2.ans (click_consent_if_present w2 (h2 ++ [Action.goto u]))).waitVisible
            Scope.pageRoot sel cfg.wait_ms) = false := by
      apply List.any_eq_false.mpr
      intro sel hsel
      simp [hsubd sel hsel]
    simp [subscribe_phase, hgoto, hfind, hany]

/-- Witness for the amended C8, at the all-strategies-fail world. -/
theorem exhausted_chain_fixed_reason_witness :
    (set_notifications_none CFG NONE_SELECTORS wC8 []).1.reason =
      some noneNotFoundMsg :=
  (exhausted_chain_fixed_reason CFG NONE_SELECTORS wC8 []
    (by decide) (by decide)).1

/-! ## C10: the page-wide menu-root fallback -/

/-- The menu root that `set_notifications_none` computes at line 383
(after `open_notifications_menu` has acted on the page) and uses to
scope its text-selector and XPath strategies. -/
def snn_root (cfg : Config) (w : World) (h : List Action) : Scope :=
  get_menu_root w (open_notifications_menu cfg w h).2

lemma get_menu_root_pageRoot (w : World) (h0 : List Action)
    (hn : ∀ i : Nat,
      ((w.ans h0).isVisibleE Scope.pageRoot MENU_CANDIDATES i).getD false =
        false) :
    get_menu_root w h0 = Scope.pageRoot := by
  have hfind : ∀ m : Nat,
      (List.range m).find?
        (fun i =>
          ((w.ans h0).isVisibleE Scope.pageRoot MENU_CANDIDATES i).getD false) =
        none := by
    intro m
    apply List.find?_eq_none.mpr
    intro i _
    simp [hn i]
  simp [get_menu_root, hfind]

/-- A page world with no visible menu container at all, but a stray
page-wide `[role='menuitemradio']` element whose text reads "None":
the menu is considered open, the scan runs page-wide, and the stray
element is clicked. -/
def wStray : World :=
  ⟨fun _ =>
    { gotoOk := fun _ => true
      gotoErrMsg := fun _ => ("")
      clickErrMsg := ("")
      isVisibleE := fun _ sel _ => some (sel == SEL_RADIO_ITEM)
      waitVisible := fun _ _ _ => false
      cssCount := fun _ sel => if sel == Sel.css NONE_SELECTORS.role_css then 1 else 0
      innerTextE := fun _ sel i =>
        if sel == Sel.css NONE_SELECTORS.role_css && i == 0 then some ("None")
        else none
      clickOk := fun _ _ _ => true
      clickForceOk := fun _ _ _ => true }⟩

/-- C10: whenever none of the first five menu-container candidates is
visible (in particular when no menu is open at all), `get_menu_root`
returns the page-wide `:root` scope instead of failing; consequently
the root that `set_notifications_none` scopes its "None"-option
strategies to is the whole page — and a stray page-wide match outside
any menu can be clicked, as the concrete world `wStray` shows: with no
menu container in existence, the chain happily clicks a page-wide
`[role='menuitemradio']` element (the recorded click carries the
`pageRoot` scope). -/
theorem menu_root_degrades_to_page_wide (w : World) (h : List Action)
    (hnone : ∀ (h' : List Action) (i : Nat),
      ((w.ans h').isVisibleE Scope.pageRoot MENU_CANDIDATES i).getD false =
        false) :
    get_menu_root w h = Scope.pageRoot ∧
    (∀ cfg : Config, snn_root cfg w h = Scope.pageRoot) ∧
    set_notifications_none CFG NONE_SELECTORS wStray [] =
      (⟨true, none⟩,
       [Action.click Scope.pageRoot (Sel.css NONE_SELECTORS.role_css) 0 false],
       [StratKind.role, StratKind.cssScan]) := by
  refine ⟨get_menu_root_pageRoot w h (hnone h), ?_, by decide⟩
  intro cfg
  simp only [snn_root]
  exact get_menu_root_pageRoot w _ (hnone _)

/-- Witness for C10 at the stray-match world. -/
theorem menu_root_degrades_to_page_wide_witness :
    get_menu_root wStray [] = Scope.pageRoot :=
  (menu_root_degrades_to_page_wide wStray [] (fun h' i => rfl)).1

end YtSubTransfer
